import Mathlib

/-
  Shallow embedding of src/Mikrotikconvert.py (MikrotikMigrate).

  Configuration text is modelled as a Lean String with LF line separators.
  Python str.splitlines, str.strip, str.replace, str.startswith, dict
  insertion/lookup and the regular expressions used by the program are
  embedded as executable functions over List Char, so every definition
  evaluates with decide or rfl.  All recursion is structural, or fuelled
  by the input length where Python skips past a matched span.
-/

/-- Python str.splitlines restricted to LF-separated text: the chunks
between newline characters, with a trailing empty chunk dropped (so
a single trailing newline produces no extra empty line). -/
def slAux (acc : List Char) : List Char → List (List Char)
  | [] => if acc = [] then [] else [acc.reverse]
  | c :: cs => if c = '\n' then acc.reverse :: slAux [] cs else slAux (c :: acc) cs

/-- config_content.splitlines() as used throughout the source. -/
def pySplitlines (s : String) : List String :=
  (slAux [] s.data).map String.mk

/-- Python "\n".join(lines). -/
def joinLines : List String → String
  | [] => ""
  | [l] => l
  | l :: ls => l ++ "\n" ++ joinLines ls

/-- Python str.strip() on ASCII whitespace. -/
def pyStrip (s : String) : String :=
  String.mk (((s.data.dropWhile Char.isWhitespace).reverse.dropWhile Char.isWhitespace).reverse)

/-- Python str.startswith. -/
def pyStartswith (s p : String) : Bool :=
  p.data.isPrefixOf s.data

/-- Helper for the Python substring test (sub in s). -/
def containsSubL (pat : List Char) : List Char → Bool
  | [] => pat.isEmpty
  | c :: cs => pat.isPrefixOf (c :: cs) || containsSubL pat cs

/-- Python substring membership (sub in s). -/
def containsSub (s sub : String) : Bool := containsSubL sub.data s.data

/-- Python str.replace: every non-overlapping occurrence, scanning left to
right, fuelled by the input length (one character is consumed per unit of
fuel, so the fuel never runs out).  The pattern is a nonempty interface
name at every call site of this program. -/
def pyReplaceAux (pat rep : List Char) : Nat → List Char → List Char
  | _, [] => []
  | 0, s => s
  | fuel + 1, c :: cs =>
    if pat.isPrefixOf (c :: cs) ∧ pat ≠ [] then
      rep ++ pyReplaceAux pat rep fuel (cs.drop (pat.length - 1))
    else
      c :: pyReplaceAux pat rep fuel cs

/-- line.replace(old, new). -/
def pyReplace (s pat rep : String) : String :=
  String.mk (pyReplaceAux pat.data rep.data s.data.length s.data)

/-- The regex alternative (ether\d+|sfp\d+) matched at the head of the
list: the alphabetic prefix followed by a maximal nonempty digit run. -/
def matchEtherSfp (cs : List Char) : Option (List Char) :=
  if ("ether".data).isPrefixOf cs then
    if (cs.drop 5).takeWhile Char.isDigit = [] then none
    else some ("ether".data ++ (cs.drop 5).takeWhile Char.isDigit)
  else if ("sfp".data).isPrefixOf cs then
    if (cs.drop 3).takeWhile Char.isDigit = [] then none
    else some ("sfp".data ++ (cs.drop 3).takeWhile Char.isDigit)
  else none

/-- re.search for a literal key followed by (ether\d+|sfp\d+): the leftmost
position where the whole pattern matches, returning the captured interface
name.  On a failed attempt the scan resumes one character later, exactly as
the regex engine does. -/
def searchKeyIface (key : List Char) : List Char → Option (List Char)
  | [] => none
  | c :: cs =>
    if key.isPrefixOf (c :: cs) then
      match matchEtherSfp ((c :: cs).drop key.length) with
      | some name => some name
      | none => searchKeyIface key cs
    else searchKeyIface key cs

/-- re.search(r'(default-name=)(ether\d+|sfp\d+)(.*)', line), returning the
captured old interface name (source line 35). -/
def findDefaultName (l : String) : Option String :=
  (searchKeyIface ("default-name=".data) l.data).map String.mk

/-- re.search(r'(interface=)(ether\d+|sfp\d+)', line) (source line 75). -/
def findIfaceTok (l : String) : Option String :=
  (searchKeyIface ("interface=".data) l.data).map String.mk

/-- re.search(r'(gateway=)(ether\d+|sfp\d+)', line) (source line 244). -/
def findGatewayTok (l : String) : Option String :=
  (searchKeyIface ("gateway=".data) l.data).map String.mk

/-- Python dict insertion: overwrite the value in place when the key is
already present, otherwise append the binding. -/
def pyDictInsert : List (String × String) → String → String → List (String × String)
  | [], k, v => [(k, v)]
  | (k', v') :: rest, k, v =>
    if k' = k then (k', v) :: rest else (k', v') :: pyDictInsert rest k v

/-- First binding for a key (keys are unique by construction). -/
def lookupKey (m : List (String × String)) (k : String) : Option (String × String) :=
  m.find? (fun p => p.1 == k)

/-- Python dict.get(k, d). -/
def dictGet (m : List (String × String)) (k d : String) : String :=
  match lookupKey m k with
  | some p => p.2
  | none => d

/-- Per-line loop of dynamic_interface_mapping (source lines 34-51): a line
matching default-name=(ether\d+|sfp\d+) is assigned the next sequential
sfp-sfpplus name, the old-to-new pair is recorded, and the line is updated
with line.replace(old_iface, new_iface). -/
def dimAux (m : List (String × String)) (idx : Nat) : List String → List String × List (String × String)
  | [] => ([], m)
  | l :: ls =>
    match findDefaultName l with
    | some old =>
      (pyReplace l old ("sfp-sfpplus" ++ toString idx) ::
        (dimAux (pyDictInsert m old ("sfp-sfpplus" ++ toString idx)) (idx + 1) ls).1,
       (dimAux (pyDictInsert m old ("sfp-sfpplus" ++ toString idx)) (idx + 1) ls).2)
    | none =>
      (l :: (dimAux m idx ls).1, (dimAux m idx ls).2)

/-- dynamic_interface_mapping (source lines 24-55): for target "2004",
renumber from sfp-sfpplus1 in document order and return the updated text
plus the mapping; otherwise return the text unchanged with an empty
mapping. -/
def dynamic_interface_mapping (config_content source_model target_model : String) :
    String × List (String × String) :=
  if target_model = "2004" then
    (joinLines (dimAux [] 1 (pySplitlines config_content)).1,
     (dimAux [] 1 (pySplitlines config_content)).2)
  else
    (config_content, [])

/-- In-section rewrite of one line (source lines 73-82): if the line
contains "interface=" and the regex finds interface=(ether\d+|sfp\d+),
every occurrence of the matched name in the line is replaced by its mapped
value (the name itself when unmapped); otherwise the line is unchanged. -/
def ipProcLine (m : List (String × String)) (l : String) : String :=
  if containsSub l "interface=" then
    match findIfaceTok l with
    | some old => pyReplace l old (dictGet m old old)
    | none => l
  else l

/-- Line loop of migrate_ip_addresses (source lines 64-84).  The
in_ip_section flag is set at the first /ip address header and never reset
by the source, so the rewrite applies from that header to the end. -/
def ipAddrLines (m : List (String × String)) : Bool → List String → List String
  | _, [] => []
  | inSec, l :: ls =>
    if pyStartswith (pyStrip l) "/ip address" then l :: ipAddrLines m true ls
    else if inSec then ipProcLine m l :: ipAddrLines m true ls
    else l :: ipAddrLines m false ls

/-- migrate_ip_addresses (source lines 59-86). -/
def migrate_ip_addresses (config_content : String) (interface_mappings : List (String × String)) : String :=
  joinLines (ipAddrLines interface_mappings false (pySplitlines config_content))

/-- In-section rewrite of one line of migrate_ip_routes (source lines
242-250), mirroring ipProcLine for gateway= tokens. -/
def rtProcLine (m : List (String × String)) (l : String) : String :=
  if containsSub l "gateway=" then
    match findGatewayTok l with
    | some old => pyReplace l old (dictGet m old old)
    | none => l
  else l

/-- Line loop of migrate_ip_routes (source lines 233-252); the
in_route_section flag is likewise never reset. -/
def rtLines (m : List (String × String)) : Bool → List String → List String
  | _, [] => []
  | inSec, l :: ls =>
    if pyStartswith (pyStrip l) "/ip route" then l :: rtLines m true ls
    else if inSec then rtProcLine m l :: rtLines m true ls
    else l :: rtLines m false ls

/-- migrate_ip_routes (source lines 228-254). -/
def migrate_ip_routes (config_content : String) (interface_mappings : List (String × String)) : String :=
  joinLines (rtLines interface_mappings false (pySplitlines config_content))

/-- Is the character an ASCII word character (regex \w)? -/
def isWordChar (c : Char) : Bool := c.isAlphanum || c == '_'

/-- Word test on an optional boundary character; none (start or end of the
text) is a word boundary. -/
def wordB : Option Char → Bool
  | none => false
  | some c => isWordChar c

/-- re.sub of a literal pattern delimited by \b on both sides, scanning
left to right over non-overlapping occurrences, fuelled by the input
length. -/
def reSubWordAux (pat rep : List Char) : Nat → Option Char → List Char → List Char
  | _, _, [] => []
  | 0, _, s => s
  | fuel + 1, prev, c :: cs =>
    if pat.isPrefixOf (c :: cs) ∧ pat ≠ [] ∧ wordB prev = false ∧
        wordB ((c :: cs)[pat.length]?) = false then
      rep ++ reSubWordAux pat rep fuel pat.getLast? (cs.drop (pat.length - 1))
    else
      c :: reSubWordAux pat rep fuel (some c) cs

/-- re.sub(r'\bPAT\b', rep, s) for a literal PAT. -/
def reSubWord (pat rep s : String) : String :=
  String.mk (reSubWordAux pat.data rep.data s.data.length none s.data)

/-- Source lines 98-99: the two authentication renames, applied in source
order (authentication first, then authentication-key, although after the
first substitution no occurrence of the second pattern can remain). -/
def update_auth_tokens (s : String) : String :=
  reSubWord "authentication-key" "auth-key" (reSubWord "authentication" "auth" s)

/-- transform_ospf_2004 (source lines 89-110).  Lines 98-99 rebind the
local config_content with the authentication renames, but line 110 returns
only the synthesized OSPF block, so the rebound local is discarded and the
result does not depend on config_content. -/
def transform_ospf_2004 (router_id lan_network loopback_network config_content : String) : String :=
  let _config_content := update_auth_tokens config_content
  "/routing ospf instance\nadd disabled=no name=default-v2 router-id=" ++ router_id ++
    " version=2 redistribute-connected=yes redistribute-static=yes\n/routing ospf area\nadd disabled=no instance=default-v2 name=backbone-v2\n/routing ospf interface-template\nadd area=backbone-v2 cost=10 disabled=no interfaces=loop0 networks=" ++
    loopback_network ++ " passive=yes priority=1\nadd area=backbone-v2 cost=10 disabled=no interfaces=lan-bridge networks=" ++
    lan_network ++ " priority=1\n"

/-- transform_bgp_2004 (source lines 114-125).  The body indexes
peer_ips[0] and peer_ips[1]; a list with fewer than two entries makes the
Python code raise IndexError. -/
def transform_bgp_2004 (router_id as_number : String) (peer_ips : List String) : Except String String :=
  match peer_ips with
  | peer0 :: peer1 :: _ =>
    Except.ok
      ("/routing bgp template\nset default as=" ++ as_number ++
        " disabled=no multihop=yes output.network=bgp-networks router-id=" ++ router_id ++
        " routing-table=main\n/routing bgp connection\nadd name=Peer1 remote.address=" ++ peer0 ++
        " remote.as=" ++ as_number ++ " connect=yes listen=yes local.address=" ++ router_id ++
        " multihop=yes .port=179 templates=default\nadd name=Peer2 remote.address=" ++ peer1 ++
        " remote.as=" ++ as_number ++ " connect=yes listen=yes local.address=" ++ router_id ++
        " multihop=yes .port=179 templates=default\n")
  | _ => Except.error "IndexError: list index out of range"

/-- Line loop of extract_firewall_rules (source lines 214-224): collect
from the first line whose stripped text starts with /ip firewall; a later
/ip firewall line is collected by the first branch, and the first blank
line reached while in the section breaks out of the whole scan. -/
def fwAux : Bool → List String → List String
  | _, [] => []
  | inSec, l :: ls =>
    if pyStartswith (pyStrip l) "/ip firewall" then l :: fwAux true ls
    else if inSec then (if pyStrip l = "" then [] else l :: fwAux true ls)
    else fwAux false ls

/-- extract_firewall_rules (source lines 209-226). -/
def extract_firewall_rules (config_content : String) : String :=
  joinLines (fwAux false (pySplitlines config_content))

/-- Line loop of remove_duplicates (source lines 264-269): drop a line
whose stripped text is empty or was seen before; otherwise keep the line
with its original spacing and record its stripped text. -/
def dedupAux (seen : List String) : List String → List String
  | [] => []
  | l :: ls =>
    if pyStrip l = "" then dedupAux seen ls
    else if pyStrip l ∈ seen then dedupAux seen ls
    else l :: dedupAux (pyStrip l :: seen) ls

/-- remove_duplicates (source lines 256-271). -/
def remove_duplicates (s : String) : String :=
  joinLines (dedupAux [] (pySplitlines s))

/-- Whitespace skip for the \s* parts of the peer-address regex. -/
def skipWs (cs : List Char) : List Char := cs.dropWhile Char.isWhitespace

/-- One \.\d+ component of the IPv4 pattern: a literal dot followed by a
maximal nonempty digit run, returning the digits and the remainder. -/
def matchDotDigits (cs : List Char) : Option (List Char × List Char) :=
  match cs with
  | '.' :: rest =>
    if rest.takeWhile Char.isDigit = [] then none
    else some (rest.takeWhile Char.isDigit, rest.dropWhile Char.isDigit)
  | _ => none

/-- \d+\.\d+\.\d+\.\d+ with maximal digit runs (each run is forced, so the
regex needs no backtracking on this pattern). -/
def matchIPv4 (cs : List Char) : Option (List Char × List Char) :=
  if cs.takeWhile Char.isDigit = [] then none
  else
    match matchDotDigits (cs.dropWhile Char.isDigit) with
    | none => none
    | some (b, r2) =>
      match matchDotDigits r2 with
      | none => none
      | some (c3, r3) =>
        match matchDotDigits r3 with
        | none => none
        | some (d, r4) =>
          some (cs.takeWhile Char.isDigit ++ '.' :: b ++ '.' :: c3 ++ '.' :: d, r4)

/-- re.findall(r'remote\.address\s*=\s*(\d+\.\d+\.\d+\.\d+)') (source line
278) as a character scan.  Matches of this pattern can never overlap (the
matched span after its first character contains no further occurrence of
"remote.address"), so resuming one character after each match start is
extensionally the same as resuming after the matched span. -/
def peerScan : List Char → List (List Char)
  | [] => []
  | c :: cs =>
    (if ("remote.address".data).isPrefixOf (c :: cs) then
      match (match skipWs ((c :: cs).drop 14) with
             | '=' :: rest => matchIPv4 (skipWs rest)
             | _ => none) with
      | some (ip, _) => [ip]
      | none => []
    else []) ++ peerScan cs

/-- extract_peer_ips (source lines 273-279): every match in order of
appearance; the two placeholder addresses are returned only when the match
list is empty. -/
def extract_peer_ips (config_content : String) : List String :=
  if (peerScan config_content.data).map String.mk = [] then ["0.0.0.0", "0.0.0.0"]
  else (peerScan config_content.data).map String.mk

/-- parse_and_migrate (source lines 128-174).  Lines 135-139 extract the
router id, AS number, networks and peer addresses; these extractions are
total and their results are consumed only inside the target_model = "2004"
branch.  Line 153 calls transform_ospf_2004 with three arguments although
the function requires four, so for target "2004" Python raises TypeError
there, before any synthesized block is built or merged (line 154 would
additionally raise NameError: update_ospf_authentication is defined
nowhere in the program).  For any other target the 2004-only steps 4-6 are
skipped and step 7 appends the deduplicated firewall section when it is
nonempty. -/
def parse_and_migrate (config_content source_model target_model : String) : Except String String :=
  let _peer_ips := extract_peer_ips config_content
  let step1 := dynamic_interface_mapping config_content source_model target_model
  let config2 := migrate_ip_addresses step1.1 step1.2
  let firewall_rules := remove_duplicates (extract_firewall_rules config2)
  if target_model = "2004" then
    Except.error "TypeError: transform_ospf_2004() missing 1 required positional argument: config_content"
  else
    Except.ok (if firewall_rules = "" then config2 else config2 ++ "\n\n" ++ firewall_rules)

/-- Modelled from the spec, for comparison with dynamic_interface_mapping:
the sequential assignment order of section 4.3, giving the names found in
document order the target names sfp-sfpplus(idx), sfp-sfpplus(idx+1), and
so on. -/
def specSequentialAssignment (idx : Nat) : List String → List (String × String)
  | [] => []
  | n :: ns => (n, "sfp-sfpplus" ++ toString idx) :: specSequentialAssignment (idx + 1) ns

/-- The old interface names captured by default-name= statements, in line
order. -/
def lineNames (lines : List String) : List String :=
  lines.filterMap findDefaultName

/-- A successful Boolean prefix test decomposes the list. -/
theorem isPrefixOf_eq_append (pat : List Char) :
    ∀ l : List Char, pat.isPrefixOf l = true → l = pat ++ l.drop pat.length := by
  induction pat with
  | nil => intro l _; simp
  | cons p ps ih =>
    intro l h
    cases l with
    | nil => simp [List.isPrefixOf] at h
    | cons c cs =>
      simp only [List.isPrefixOf, Bool.and_eq_true, beq_iff_eq] at h
      obtain ⟨hpc, hrest⟩ := h
      have := ih cs hrest
      simp [hpc, List.length_cons, List.drop_succ_cons]
      conv_lhs => rw [this]

/-- Replacing a pattern by itself is the identity, whatever the fuel. -/
theorem pyReplaceAux_self (pat : List Char) :
    ∀ (fuel : Nat) (s : List Char), pyReplaceAux pat pat fuel s = s := by
  intro fuel
  induction fuel with
  | zero => intro s; cases s <;> rfl
  | succ n ih =>
    intro s
    cases s with
    | nil => rfl
    | cons c cs =>
      simp only [pyReplaceAux]
      by_cases h : pat.isPrefixOf (c :: cs) = true ∧ pat ≠ []
      · rw [if_pos h]
        obtain ⟨hpre, hne⟩ := h
        have hdec := isPrefixOf_eq_append pat (c :: cs) hpre
        cases pat with
        | nil => exact absurd rfl hne
        | cons p ps =>
          simp only [List.length_cons, Nat.add_sub_cancel, List.drop_succ_cons] at hdec ⊢
          rw [ih (cs.drop ps.length)]
          exact hdec.symm
      · rw [if_neg h, ih cs]

theorem pyReplace_self (s p : String) : pyReplace s p p = s := by
  simp [pyReplace, pyReplaceAux_self]

theorem ipProcLine_nilmap (l : String) : ipProcLine [] l = l := by
  unfold ipProcLine
  by_cases hc : containsSub l "interface=" = true
  · rw [if_pos hc]
    cases h : findIfaceTok l with
    | none => rfl
    | some old => simp [dictGet, lookupKey, pyReplace_self]
  · rw [if_neg hc]

theorem ipAddrLines_nilmap : ∀ (b : Bool) (ls : List String), ipAddrLines [] b ls = ls := by
  intro b ls
  induction ls generalizing b with
  | nil => rfl
  | cons l ls ih =>
    simp only [ipAddrLines]
    by_cases h1 : pyStartswith (pyStrip l) "/ip address" = true
    · rw [if_pos h1, ih]
    · rw [if_neg h1]
      cases b <;> simp [ipProcLine_nilmap, ih]

theorem migrate_ip_addresses_nilmap (t : String) :
    migrate_ip_addresses t [] = joinLines (pySplitlines t) := by
  simp [migrate_ip_addresses, ipAddrLines_nilmap]

theorem lookupKey_append_none (m m2 : List (String × String)) (k : String)
    (h : lookupKey m k = none) : lookupKey (m ++ m2) k = lookupKey m2 k := by
  induction m with
  | nil => rfl
  | cons p rest ih =>
    simp only [lookupKey, List.find?] at h ⊢
    cases hpk : (p.1 == k) with
    | true => rw [hpk] at h; cases h
    | false =>
      rw [hpk] at h
      simpa only [lookupKey] using ih h

theorem pyDictInsert_of_none (m : List (String × String)) (k v : String)
    (h : lookupKey m k = none) : pyDictInsert m k v = m ++ [(k, v)] := by
  induction m with
  | nil => rfl
  | cons p rest ih =>
    obtain ⟨k', v'⟩ := p
    simp only [lookupKey, List.find?] at h
    by_cases hk : k' = k
    · rw [show (((k', v') : String × String).1 == k) = true by simpa using hk] at h
      cases h
    · rw [show (((k', v') : String × String).1 == k) = false by simpa using hk] at h
      simp only [pyDictInsert, if_neg hk, List.cons_append, List.cons.injEq, true_and]
      exact ih h

theorem dimAux_snd : ∀ (lines : List String) (m : List (String × String)) (idx : Nat),
    (∀ n ∈ lineNames lines, lookupKey m n = none) → (lineNames lines).Nodup →
    (dimAux m idx lines).2 = m ++ specSequentialAssignment idx (lineNames lines) := by
  intro lines
  induction lines with
  | nil => intro m idx _ _; simp [dimAux, lineNames, specSequentialAssignment]
  | cons l ls ih =>
    intro m idx h hnd
    cases hf : findDefaultName l with
    | none =>
      have hln : lineNames (l :: ls) = lineNames ls := by
        simp [lineNames, List.filterMap_cons, hf]
      rw [hln] at h hnd
      simp only [dimAux, hf, hln]
      exact ih m idx h hnd
    | some old =>
      have hln : lineNames (l :: ls) = old :: lineNames ls := by
        simp [lineNames, List.filterMap_cons, hf]
      rw [hln] at h hnd
      simp only [dimAux, hf, hln]
      have hm : lookupKey m old = none := h old (List.mem_cons_self _ _)
      rw [pyDictInsert_of_none m old _ hm]
      have hnotin : old ∉ lineNames ls := (List.nodup_cons.1 hnd).1
      have hnd2 : (lineNames ls).Nodup := (List.nodup_cons.1 hnd).2
      have h2 : ∀ n ∈ lineNames ls,
          lookupKey (m ++ [(old, "sfp-sfpplus" ++ toString idx)]) n = none := by
        intro n hn
        rw [lookupKey_append_none _ _ _ (h n (List.mem_cons_of_mem _ hn))]
        have hne : (old == n) = false := by
          simpa using fun he : old = n => hnotin (he ▸ hn)
        simp [lookupKey, List.find?, hne]
      rw [ih _ _ h2 hnd2]
      simp [specSequentialAssignment, List.append_assoc]

theorem ipAddrLines_true_map (m : List (String × String)) (ls : List String) :
    ipAddrLines m true ls = ls.map (fun l =>
      if pyStartswith (pyStrip l) "/ip address" = true then l else ipProcLine m l) := by
  induction ls with
  | nil => rfl
  | cons l ls ih =>
    simp only [ipAddrLines, List.map_cons]
    by_cases h : pyStartswith (pyStrip l) "/ip address" = true
    · rw [if_pos h, if_pos h, ih]
    · rw [if_neg h, if_neg h, if_pos trivial, ih]

theorem ipAddrLines_nohdr (m : List (String × String)) (ls : List String)
    (h : ∀ l ∈ ls, pyStartswith (pyStrip l) "/ip address" = false) :
    ipAddrLines m false ls = ls := by
  induction ls with
  | nil => rfl
  | cons l ls ih =>
    have h1 : ¬(pyStartswith (pyStrip l) "/ip address" = true) := by
      simp [h l (List.mem_cons_self _ _)]
    simp only [ipAddrLines, if_neg h1, if_neg (Bool.false_ne_true)]
    rw [ih (fun x hx => h x (List.mem_cons_of_mem _ hx))]

theorem ipAddrLines_append_nohdr (m : List (String × String)) (pre rest : List String)
    (h : ∀ l ∈ pre, pyStartswith (pyStrip l) "/ip address" = false) :
    ipAddrLines m false (pre ++ rest) = pre ++ ipAddrLines m false rest := by
  induction pre with
  | nil => rfl
  | cons l pre ih =>
    have h1 : ¬(pyStartswith (pyStrip l) "/ip address" = true) := by
      simp [h l (List.mem_cons_self _ _)]
    simp only [List.cons_append, ipAddrLines, List.append_eq, if_neg h1,
      if_neg (Bool.false_ne_true)]
    rw [ih (fun x hx => h x (List.mem_cons_of_mem _ hx))]

theorem rtLines_true_map (m : List (String × String)) (ls : List String) :
    rtLines m true ls = ls.map (fun l =>
      if pyStartswith (pyStrip l) "/ip route" = true then l else rtProcLine m l) := by
  induction ls with
  | nil => rfl
  | cons l ls ih =>
    simp only [rtLines, List.map_cons]
    by_cases h : pyStartswith (pyStrip l) "/ip route" = true
    · rw [if_pos h, if_pos h, ih]
    · rw [if_neg h, if_neg h, if_pos trivial, ih]

theorem rtLines_nohdr (m : List (String × String)) (ls : List String)
    (h : ∀ l ∈ ls, pyStartswith (pyStrip l) "/ip route" = false) :
    rtLines m false ls = ls := by
  induction ls with
  | nil => rfl
  | cons l ls ih =>
    have h1 : ¬(pyStartswith (pyStrip l) "/ip route" = true) := by
      simp [h l (List.mem_cons_self _ _)]
    simp only [rtLines, if_neg h1, if_neg (Bool.false_ne_true)]
    rw [ih (fun x hx => h x (List.mem_cons_of_mem _ hx))]

theorem rtLines_append_nohdr (m : List (String × String)) (pre rest : List String)
    (h : ∀ l ∈ pre, pyStartswith (pyStrip l) "/ip route" = false) :
    rtLines m false (pre ++ rest) = pre ++ rtLines m false rest := by
  induction pre with
  | nil => rfl
  | cons l pre ih =>
    have h1 : ¬(pyStartswith (pyStrip l) "/ip route" = true) := by
      simp [h l (List.mem_cons_self _ _)]
    simp only [List.cons_append, rtLines, List.append_eq, if_neg h1,
      if_neg (Bool.false_ne_true)]
    rw [ih (fun x hx => h x (List.mem_cons_of_mem _ hx))]

theorem dedupAux_sublist : ∀ (ls seen : List String), (dedupAux seen ls).Sublist ls := by
  intro ls
  induction ls with
  | nil => intro seen; exact List.Sublist.refl _
  | cons l ls ih =>
    intro seen
    simp only [dedupAux]
    by_cases h1 : pyStrip l = ""
    · rw [if_pos h1]; exact (ih seen).cons l
    · rw [if_neg h1]
      by_cases h2 : pyStrip l ∈ seen
      · rw [if_pos h2]; exact (ih seen).cons l
      · rw [if_neg h2]; exact (ih _).cons₂ l

theorem dedupAux_nonblank : ∀ (ls seen : List String) (l : String),
    l ∈ dedupAux seen ls → pyStrip l ≠ "" := by
  intro ls
  induction ls with
  | nil => intro seen l h; cases h
  | cons a ls ih =>
    intro seen l h
    simp only [dedupAux] at h
    by_cases h1 : pyStrip a = ""
    · rw [if_pos h1] at h; exact ih seen l h
    · rw [if_neg h1] at h
      by_cases h2 : pyStrip a ∈ seen
      · rw [if_pos h2] at h; exact ih seen l h
      · rw [if_neg h2] at h
        rcases List.mem_cons.1 h with he | hm
        · exact he ▸ h1
        · exact ih _ l hm

theorem dedupAux_avoid_nodup : ∀ (ls seen : List String),
    (∀ x ∈ dedupAux seen ls, pyStrip x ∉ seen) ∧ ((dedupAux seen ls).map pyStrip).Nodup := by
  intro ls
  induction ls with
  | nil => intro seen; exact ⟨fun x h => absurd h (List.not_mem_nil x), List.nodup_nil⟩
  | cons a ls ih =>
    intro seen
    simp only [dedupAux]
    by_cases h1 : pyStrip a = ""
    · rw [if_pos h1]; exact ih seen
    · rw [if_neg h1]
      by_cases h2 : pyStrip a ∈ seen
      · rw [if_pos h2]; exact ih seen
      · rw [if_neg h2]
        constructor
        · intro x hx
          rcases List.mem_cons.1 hx with he | hm
          · exact he ▸ h2
          · intro hs
            exact (ih (pyStrip a :: seen)).1 x hm (List.mem_cons_of_mem _ hs)
        · rw [List.map_cons, List.nodup_cons]
          constructor
          · intro hmem
            rcases List.mem_map.1 hmem with ⟨x, hx, hsx⟩
            exact (ih (pyStrip a :: seen)).1 x hx (hsx ▸ List.mem_cons_self _ _)
          · exact (ih (pyStrip a :: seen)).2

theorem find?_cons_eval (p : String → Bool) (a : String) (l : List String) :
    List.find? p (a :: l) = if p a then some a else List.find? p l := by
  cases h : p a
  · simp [List.find?, h]
  · simp [List.find?, h]

theorem dedupAux_find_first : ∀ (ls seen : List String) (l : String),
    l ∈ ls → pyStrip l ≠ "" → pyStrip l ∉ seen →
    (dedupAux seen ls).find? (fun k => pyStrip k == pyStrip l)
      = ls.find? (fun k => pyStrip k == pyStrip l) := by
  intro ls
  induction ls with
  | nil => intro seen l h; cases h
  | cons a ls ih =>
    intro seen l hmem hne hseen
    rw [find?_cons_eval]
    by_cases hal : pyStrip a = pyStrip l
    · have hpa : (fun k => pyStrip k == pyStrip l) a = true := by simpa using hal
      have h1 : ¬(pyStrip a = "") := fun hh => hne (hal.symm.trans hh)
      have h2 : pyStrip a ∉ seen := fun hh => hseen (hal ▸ hh)
      simp only [dedupAux, if_neg h1, if_neg h2]
      rw [find?_cons_eval, if_pos hpa, if_pos hpa]
    · have hpa : ¬((fun k => pyStrip k == pyStrip l) a = true) := by simpa using hal
      rw [if_neg hpa]
      have hml : l ∈ ls := by
        rcases List.mem_cons.1 hmem with he | hm
        · exact absurd (congrArg pyStrip he).symm hal
        · exact hm
      simp only [dedupAux]
      by_cases h1 : pyStrip a = ""
      · rw [if_pos h1]; exact ih seen l hml hne hseen
      · rw [if_neg h1]
        by_cases h2 : pyStrip a ∈ seen
        · rw [if_pos h2]; exact ih seen l hml hne hseen
        · rw [if_neg h2, find?_cons_eval, if_neg hpa]
          refine ih _ l hml hne ?_
          intro hx
          rcases List.mem_cons.1 hx with he | hm
          · exact hal he.symm
          · exact hseen hm

/-- Claim C1: the spec says that for the supported profile pair (target
"2004") parse_and_migrate always completes and returns a migrated text.
The code instead raises for every such run: line 153 calls
transform_ospf_2004 with three arguments while the function requires four,
a TypeError, before any transformation result is produced.  This theorem
evaluates the pipeline at a failing input. -/
theorem pipeline_2004_always_raises :
    parse_and_migrate "" "1036" "2004"
      = Except.error "TypeError: transform_ospf_2004() missing 1 required positional argument: config_content" := by
  rfl

/-- Claim C2, counterexample: calling the migration with the unsupported
profile pair ("9999", "8888") returns a success result carrying the
document, not a typed UnknownProfile error, refuting the claim that such a
call never returns a success result. -/
theorem unknown_profile_returns_success_counterexample :
    parse_and_migrate "set routing=yes" "9999" "8888" = Except.ok "set routing=yes" := by
  rfl

/-- Claim C2, amended: with any target other than "2004" the pipeline
never produces an error for unknown profiles; it returns a success result
(the processed document), because no profile validation exists in the
code. -/
theorem unknown_profile_no_error (t s tgt : String) (h : tgt ≠ "2004") :
    ∃ out, parse_and_migrate t s tgt = Except.ok out := by
  simp only [parse_and_migrate, if_neg h]
  exact ⟨_, rfl⟩

/-- Witness for unknown_profile_no_error at a concrete unsupported pair. -/
theorem unknown_profile_no_error_witness :
    ∃ out, parse_and_migrate "add x=1" "9999" "8888" = Except.ok out :=
  unknown_profile_no_error "add x=1" "9999" "8888" (by decide)

/-- Claim C3, counterexample: with the mapping {ether1 to sfp-sfpplus1},
a document whose only line carries interface=ether1 (and one whose only
line carries gateway=ether1) passes through the reference-rewrite pass
unchanged because no /ip address (resp. /ip route) header precedes it,
although ether1 is a key of the mapping; the final conjunct shows the
rewrite would have changed the line, so the pass did not rewrite a mapped
token that appears outside the section. -/
theorem reference_rewrite_not_global_counterexample :
    migrate_ip_addresses "add interface=ether1" [("ether1", "sfp-sfpplus1")] = "add interface=ether1"
    ∧ migrate_ip_routes "add gateway=ether1" [("ether1", "sfp-sfpplus1")] = "add gateway=ether1"
    ∧ pyReplace "add interface=ether1" "ether1" "sfp-sfpplus1" ≠ "add interface=ether1" := by
  refine ⟨by decide, by decide, by decide⟩

/-- Claim C3, amended: the reference-rewrite pass is section-scoped, not
document-wide.  interface= tokens are rewritten only on lines from the
first /ip address header onward and gateway= tokens only from the first
/ip route header onward; a document with no such header passes through
unchanged, and within the region each line is rewritten by replacing the
first regex-matched ether/sfp name with its mapped value throughout the
line. -/
theorem reference_rewrite_section_scoped (m : List (String × String)) :
    (∀ t, migrate_ip_addresses t m = joinLines (ipAddrLines m false (pySplitlines t)))
    ∧ (∀ lines, (∀ l ∈ lines, pyStartswith (pyStrip l) "/ip address" = false) →
        ipAddrLines m false lines = lines)
    ∧ (∀ pre hdr rest, (∀ l ∈ pre, pyStartswith (pyStrip l) "/ip address" = false) →
        pyStartswith (pyStrip hdr) "/ip address" = true →
        ipAddrLines m false (pre ++ hdr :: rest) = pre ++ hdr :: rest.map (fun l =>
          if pyStartswith (pyStrip l) "/ip address" = true then l else ipProcLine m l))
    ∧ (∀ lines, (∀ l ∈ lines, pyStartswith (pyStrip l) "/ip route" = false) →
        rtLines m false lines = lines)
    ∧ (∀ pre hdr rest, (∀ l ∈ pre, pyStartswith (pyStrip l) "/ip route" = false) →
        pyStartswith (pyStrip hdr) "/ip route" = true →
        rtLines m false (pre ++ hdr :: rest) = pre ++ hdr :: rest.map (fun l =>
          if pyStartswith (pyStrip l) "/ip route" = true then l else rtProcLine m l)) := by
  refine ⟨fun t => rfl, ipAddrLines_nohdr m, ?_, rtLines_nohdr m, ?_⟩
  · intro pre hdr rest hpre hhdr
    rw [ipAddrLines_append_nohdr m pre _ hpre]
    simp only [ipAddrLines, if_pos hhdr]
    rw [ipAddrLines_true_map]
  · intro pre hdr rest hpre hhdr
    rw [rtLines_append_nohdr m pre _ hpre]
    simp only [rtLines, if_pos hhdr]
    rw [rtLines_true_map]

/-- Witness for reference_rewrite_section_scoped: inside the /ip address
region a mapped interface token is rewritten. -/
theorem reference_rewrite_section_scoped_witness :
    ipAddrLines [("ether1", "sfp-sfpplus1")] false
        ["/ip address", "add address=10.0.0.1/24 interface=ether1"]
      = ["/ip address", "add address=10.0.0.1/24 interface=sfp-sfpplus1"] := by
  have h := (reference_rewrite_section_scoped [("ether1", "sfp-sfpplus1")]).2.2.1
    [] "/ip address" ["add address=10.0.0.1/24 interface=ether1"]
    (by intro l hl; cases hl) (by decide)
  exact h.trans (by decide)

/-- Claim C4: for target "2004" the mapping assigns sfp-sfpplus1,
sfp-sfpplus2, and so on, strictly in the order in which matching
default-name= statements appear in the document (when the captured names
are distinct, as a dictionary keyed by old name presupposes). -/
theorem mapping_follows_document_order (t s : String)
    (h : (lineNames (pySplitlines t)).Nodup) :
    (dynamic_interface_mapping t s "2004").2
      = specSequentialAssignment 1 (lineNames (pySplitlines t)) := by
  have h0 : ∀ n ∈ lineNames (pySplitlines t), lookupKey [] n = none := fun n _ => rfl
  have hd := dimAux_snd (pySplitlines t) [] 1 h0 h
  simpa [dynamic_interface_mapping] using hd

/-- Witness for mapping_follows_document_order at the input of the claim:
default-name=ether2 on an earlier line than default-name=ether1, so ether2
receives the lower index. -/
theorem mapping_follows_document_order_witness :
    (dynamic_interface_mapping "default-name=ether2\ndefault-name=ether1" "1036" "2004").2
      = [("ether2", "sfp-sfpplus1"), ("ether1", "sfp-sfpplus2")] :=
  (mapping_follows_document_order "default-name=ether2\ndefault-name=ether1" "1036"
    (by decide)).trans (by decide)

/-- Claim C5: the spec requires a replace-if-present-else-append merge that
is idempotent under re-migration.  In the code the merge for target "2004"
is unreachable: re-running the migration on a document that already
contains the synthesized /routing ospf instance section raises the
TypeError of line 153 before any merge, and the merge statements that do
exist (lines 156, 162, 168) only append, never replace.  This theorem
evaluates the pipeline at such a re-migration input. -/
theorem merge_step_unreachable_for_2004 :
    parse_and_migrate "/routing ospf instance\nadd disabled=no name=default-v2 router-id=1.1.1.1"
        "1036" "2004"
      = Except.error "TypeError: transform_ospf_2004() missing 1 required positional argument: config_content" := by
  rfl

/-- Claim C6: the spec says peer_addresses is padded to at least two
entries.  The code pads only when no match at all is found: with exactly
one remote.address= occurrence it returns a one-element list, on which the
peering synthesizer transform_bgp_2004 raises IndexError. -/
theorem single_peer_address_not_padded :
    extract_peer_ips "add remote.address=10.1.1.1 remote.as=65001" = ["10.1.1.1"]
    ∧ (extract_peer_ips "add remote.address=10.1.1.1 remote.as=65001").length = 1
    ∧ ∀ r a, transform_bgp_2004 r a (extract_peer_ips "add remote.address=10.1.1.1 remote.as=65001")
        = Except.error "IndexError: list index out of range" := by
  refine ⟨by decide, by decide, ?_⟩
  intro r a
  rw [show extract_peer_ips "add remote.address=10.1.1.1 remote.as=65001" = ["10.1.1.1"] by decide]
  rfl

/-- Claim C7, counterexample: with an unrecognized profile pair the
migration is not the identity transform; on a document consisting of a
firewall section the deduplicated firewall section is appended once more,
so the output differs from the input. -/
theorem unknown_profile_not_identity_counterexample :
    parse_and_migrate "/ip firewall filter\nadd chain=input" "9999" "8888"
      = Except.ok "/ip firewall filter\nadd chain=input\n\n/ip firewall filter\nadd chain=input"
    ∧ "/ip firewall filter\nadd chain=input\n\n/ip firewall filter\nadd chain=input"
      ≠ "/ip firewall filter\nadd chain=input" := by
  refine ⟨by rfl, by decide⟩

/-- Claim C7, amended: for any unrecognized profile pair and any
line-normalized input (LF separators, no trailing newline), the migration
produces no error and returns the document unchanged except that its
deduplicated firewall section, when nonempty, is appended at the end. -/
theorem unknown_profile_identity_up_to_firewall (t s tgt : String) (h : tgt ≠ "2004")
    (hn : joinLines (pySplitlines t) = t) :
    parse_and_migrate t s tgt =
      Except.ok (if remove_duplicates (extract_firewall_rules t) = "" then t
        else t ++ "\n\n" ++ remove_duplicates (extract_firewall_rules t)) := by
  have hm : migrate_ip_addresses t [] = t := by
    rw [migrate_ip_addresses_nilmap, hn]
  simp only [parse_and_migrate, dynamic_interface_mapping, if_neg h]
  rw [hm]

/-- Witness for unknown_profile_identity_up_to_firewall at a concrete
firewall-bearing document and unsupported profile pair. -/
theorem unknown_profile_identity_up_to_firewall_witness :
    parse_and_migrate "/ip firewall filter\nadd x=1" "1036" "7777"
      = Except.ok (if remove_duplicates (extract_firewall_rules "/ip firewall filter\nadd x=1") = ""
          then "/ip firewall filter\nadd x=1"
          else "/ip firewall filter\nadd x=1" ++ "\n\n"
            ++ remove_duplicates (extract_firewall_rules "/ip firewall filter\nadd x=1")) :=
  unknown_profile_identity_up_to_firewall "/ip firewall filter\nadd x=1" "1036" "7777"
    (by decide) (by decide)

/-- Claim C8: the spec says the dialect rewrite renames authentication to
auth (and authentication-key to auth-key) in the migrated text, as
whole-token matches.  The rename itself behaves that way (first two
conjuncts), but transform_ospf_2004 discards the rewritten text: its
result does not depend on config_content at all (third conjunct), so the
rename never reaches any migrated text, and for target "2004" the pipeline
raises before the call in any case. -/
theorem auth_rename_discarded :
    update_auth_tokens "add authentication=md5 authentication-key=secret"
      = "add auth=md5 auth-key=secret"
    ∧ update_auth_tokens "add preauthentication=md5 authentications=2"
      = "add preauthentication=md5 authentications=2"
    ∧ ∀ r ln lb c₁ c₂ : String, transform_ospf_2004 r ln lb c₁ = transform_ospf_2004 r ln lb c₂ := by
  exact ⟨by decide, by decide, fun r ln lb c₁ c₂ => rfl⟩

/-- Claim C9: for any target that does not regenerate firewall rules (any
non-"2004" target; for "2004" the pipeline raises before producing
output), a document whose firewall section is nonempty yields an output
that ends with the extracted, deduplicated firewall section appended after
a blank separator. -/
theorem firewall_rules_deduped_and_appended (t s tgt : String) (h : tgt ≠ "2004")
    (hfw : remove_duplicates (extract_firewall_rules (migrate_ip_addresses t [])) ≠ "") :
    ∃ p, parse_and_migrate t s tgt
      = Except.ok (p ++ "\n\n" ++ remove_duplicates (extract_firewall_rules (migrate_ip_addresses t []))) := by
  refine ⟨migrate_ip_addresses t [], ?_⟩
  simp only [parse_and_migrate, dynamic_interface_mapping, if_neg h]
  rw [if_neg hfw]

/-- Witness for firewall_rules_deduped_and_appended at a concrete
firewall-bearing document. -/
theorem firewall_rules_deduped_and_appended_witness :
    ∃ p, parse_and_migrate "/ip firewall filter\nadd chain=forward" "1036" "9999"
      = Except.ok (p ++ "\n\n" ++ remove_duplicates (extract_firewall_rules
          (migrate_ip_addresses "/ip firewall filter\nadd chain=forward" []))) :=
  firewall_rules_deduped_and_appended "/ip firewall filter\nadd chain=forward" "1036" "9999"
    (by decide) (by decide)

/-- Claim C10: remove_duplicates drops every line whose stripped text is
empty, treats lines as duplicates by their stripped text, keeps only the
first such line with its original spacing (the find? conjunct), and
preserves the relative order of kept lines (the Sublist conjunct). -/
theorem remove_duplicates_characterization (s : String) :
    remove_duplicates s = joinLines (dedupAux [] (pySplitlines s))
    ∧ (dedupAux [] (pySplitlines s)).Sublist (pySplitlines s)
    ∧ (∀ l ∈ dedupAux [] (pySplitlines s), pyStrip l ≠ "")
    ∧ ((dedupAux [] (pySplitlines s)).map pyStrip).Nodup
    ∧ (∀ l ∈ pySplitlines s, pyStrip l ≠ "" →
        (dedupAux [] (pySplitlines s)).find? (fun k => pyStrip k == pyStrip l)
          = (pySplitlines s).find? (fun k => pyStrip k == pyStrip l)) := by
  refine ⟨rfl, dedupAux_sublist _ _, ?_, (dedupAux_avoid_nodup _ _).2, ?_⟩
  · intro l hl
    exact dedupAux_nonblank _ _ _ hl
  · intro l hl hne
    exact dedupAux_find_first _ [] l hl hne (List.not_mem_nil _)

/-- Witness for remove_duplicates_characterization: the second line
duplicates the first one up to stripping and is dropped, the blank line is
dropped, and the kept line is the first occurrence with its spacing. -/
theorem remove_duplicates_characterization_witness :
    (dedupAux [] (pySplitlines " a\na\n\nb")).find? (fun k => pyStrip k == pyStrip "a")
      = (pySplitlines " a\na\n\nb").find? (fun k => pyStrip k == pyStrip "a")
    ∧ remove_duplicates " a\na\n\nb" = " a\nb" :=
  ⟨(remove_duplicates_characterization " a\na\n\nb").2.2.2.2 "a" (by decide) (by decide),
   by decide⟩
